import Mathlib

/-!
Verification of the procedural city-generation script
(`src/practicaPython/SciptCityblender.py`).

The development has two layers:

* `CityGen` — a pure model of the generation geometry: the terrain
  height field computed by `create_terrain` (lines 82-92) and the
  building list computed by `create_buildings` (lines 116-152).
  Python floats are modelled as real numbers; the per-building call to
  `random.uniform` is modelled by an arbitrary height stream
  `heights : ℕ → ℝ`.

* `CityScene` — a computable model of the Blender scene state that the
  script mutates: objects (with a type tag and a fresh numeric identity),
  data collections, the scene-root collection links and the material
  data-block names.  `clear_scene`, `create_terrain`, `create_buildings`
  and `setup_scene` become state transformers over this state.
-/

namespace CityGen

/-- A mesh vertex position, as Blender's `vert.co`. -/
structure Vec3 where
  x : ℝ
  y : ℝ
  z : ℝ

/-- Terrain height at local coordinates `(x, y)`, translated from the
vertex loop of `create_terrain` (lines 85-92):
`z1 = sin(x*f)`, `z2 = cos(y*f)`, `z3 = sin(x*f*0.5 + 1.0)`,
`z4 = cos(y*f*0.5)`, and `vert.co.z = (z1*z2 + z3*z4) * s / 2.0`. -/
noncomputable def terrainHeight (f s x y : ℝ) : ℝ :=
  let offset_x := x * f
  let offset_y := y * f
  let z1 := Real.sin offset_x
  let z2 := Real.cos offset_y
  let z3 := Real.sin (offset_x * 0.5 + 1)
  let z4 := Real.cos (offset_y * 0.5)
  (z1 * z2 + z3 * z4) * s / 2

/-- Modelled from the spec: the Blender operator
`bpy.ops.mesh.primitive_grid_add` is host code absent from the
repository.  Per the spec, the grid is a regular grid with
`cell width per axis = extent / subdivisions (that axis)`, centred at
the origin, and buildings may be visited "in any vertex traversal
order"; we index the vertices linearly, vertex `k` sitting at column
`k % (nx+1)` and row `k / (nx+1)`.  `terrainVert` is the position of
vertex `k` after the height loop of `create_terrain` has set its `z`. -/
noncomputable def terrainVert (size : ℝ) (nx ny : ℕ) (f s : ℝ) (k : ℕ) : Vec3 :=
  let xco : ℝ := (k % (nx + 1) : ℕ) * (size / nx) - size / 2
  let yco : ℝ := (k / (nx + 1) : ℕ) * (size / ny) - size / 2
  ⟨xco, yco, terrainHeight f s xco yco⟩

/-- The list of terrain vertices produced by `create_terrain`
(lines 62-99): the grid's `(nx+1) * (ny+1)` vertices, each with its
`z` coordinate set by the height-field loop. -/
noncomputable def create_terrain (size : ℝ) (nx ny : ℕ) (f s : ℝ) : List Vec3 :=
  (List.range ((nx + 1) * (ny + 1))).map (terrainVert size nx ny f s)

/-- A building cube as placed by `create_buildings`: its `location`
(the cube centre) and its `dimensions` (line 152). -/
structure Building where
  center : Vec3
  sizeX : ℝ
  sizeY : ℝ
  height : ℝ

/-- The vertex loop of `create_buildings` (lines 132-152): for the
`k`-th vertex `v`, draw `building_height = heights k`, set
`base_z = v.z - embed`, `center_z = base_z + height/2`, and emit a cube
at `(v.x, v.y, center_z)` with dimensions `(bsx, bsy, building_height)`. -/
noncomputable def buildLoop (bsx bsy embed : ℝ) (heights : ℕ → ℝ) :
    ℕ → List Vec3 → List Building
  | _, [] => []
  | k, v :: vs =>
      { center := ⟨v.x, v.y, (v.z - embed) + heights k / 2⟩,
        sizeX := bsx, sizeY := bsy, height := heights k }
        :: buildLoop bsx bsy embed heights (k + 1) vs

/-- The building list produced by `create_buildings` (lines 101-161):
the zero-subdivision guard (lines 112-114) yields no buildings;
otherwise `cell_width_x = grid_size / x_subdivisions`,
`building_size_x = cell_width_x * (1.0 - street_width_factor)` (and
likewise for `y`, lines 116-120), then one cube per terrain vertex. -/
noncomputable def create_buildings (terrain : List Vec3) (size : ℝ) (nx ny : ℕ)
    (swf embed : ℝ) (heights : ℕ → ℝ) : List Building :=
  if nx = 0 ∨ ny = 0 then []
  else
    let cell_width_x := size / nx
    let cell_width_y := size / ny
    let building_size_x := cell_width_x * (1 - swf)
    let building_size_y := cell_width_y * (1 - swf)
    buildLoop building_size_x building_size_y embed heights 0 terrain

/-- The building generated for grid vertex `k` when the guard passes:
the closed form of one `buildLoop` step over `create_terrain`. -/
noncomputable def buildingAt (size : ℝ) (nx ny : ℕ) (f s swf embed : ℝ)
    (heights : ℕ → ℝ) (k : ℕ) : Building :=
  { center := ⟨(terrainVert size nx ny f s k).x, (terrainVert size nx ny f s k).y,
      ((terrainVert size nx ny f s k).z - embed) + heights k / 2⟩,
    sizeX := size / nx * (1 - swf),
    sizeY := size / ny * (1 - swf),
    height := heights k }

/-- Two intervals of the given centres and widths share an interior
point on one axis. -/
def overlapAxis (c1 s1 c2 s2 : ℝ) : Prop :=
  ∃ p : ℝ, |p - c1| < s1 / 2 ∧ |p - c2| < s2 / 2

/-- Two building footprints overlap: their open boxes share a point,
i.e. they overlap on the x axis and on the y axis. -/
def overlap (b1 b2 : Building) : Prop :=
  overlapAxis b1.center.x b1.sizeX b2.center.x b2.sizeX ∧
    overlapAxis b1.center.y b1.sizeY b2.center.y b2.sizeY

/-- Concrete building used by the C4 witness: vertex `0` of a `2 × 2`
grid of extent `2`, street width factor `1/2`. -/
noncomputable def witnessBuildingA : Building :=
  buildingAt 2 1 1 0 0 (1 / 2) 0 (fun _ => 1) 0

/-- Concrete building used by the C4 witness: vertex `1` of the same
grid. -/
noncomputable def witnessBuildingB : Building :=
  buildingAt 2 1 1 0 0 (1 / 2) 0 (fun _ => 1) 1

end CityGen

namespace CityScene

/-- Blender object types that the script distinguishes
(`obj.type` values `'MESH'`, `'LIGHT'`, `'CAMERA'`, and everything
else). -/
inductive ObjType where
  | mesh
  | light
  | camera
  | other
deriving DecidableEq

/-- A scene object: a fresh numeric identity (Blender data-block
identity), its name, and its type. -/
structure SceneObj where
  id : ℕ
  name : String
  type : ObjType
deriving DecidableEq

/-- A data collection (`bpy.data.collections` entry): its name and the
ids of the objects linked into it. -/
structure SceneColl where
  name : String
  objIds : List ℕ
deriving DecidableEq

/-- The scene state the script mutates: the objects of `bpy.data`, the
data collections, which collections are linked under the scene root,
the material data-block names, and the next fresh object id. -/
structure SceneState where
  objects : List SceneObj
  colls : List SceneColl
  sceneChildren : List String
  materials : List String
  nextId : ℕ
deriving DecidableEq

/-- Mesh deletion step of `clear_scene` (lines 32-36): every `MESH`
object is deleted; Blender drops deleted objects from the collections
they were linked into. -/
def deleteMeshes (st : SceneState) : SceneState :=
  let keep := st.objects.filter (fun o => o.type ≠ ObjType.mesh)
  let keptIds := keep.map (fun o => o.id)
  { st with objects := keep,
            colls := st.colls.map (fun c =>
              { c with objIds := c.objIds.filter (fun i => i ∈ keptIds) }) }

/-- Translation of `clear_scene` (lines 24-55): delete all mesh objects,
then unlink from the scene root and remove every data collection left
without objects. -/
def clear_scene (st : SceneState) : SceneState :=
  let st1 := deleteMeshes st
  let emptyNames := (st1.colls.filter (fun c => c.objIds = [])).map (fun c => c.name)
  { st1 with
    colls := st1.colls.filter (fun c => c.objIds ≠ []),
    sceneChildren := st1.sceneChildren.filter (fun n => n ∉ emptyNames) }

/-- Scene effect of `create_terrain` (lines 62-71): one new mesh object
named `"Terrain"`, linked under the scene root collection. -/
def create_terrain (st : SceneState) : SceneState :=
  { st with objects := st.objects ++ [⟨st.nextId, "Terrain", ObjType.mesh⟩],
            nextId := st.nextId + 1 }

/-- Scene effect of one building-loop iteration (lines 143-158): a new
cube object named after the running count, unlinked from its original
collections and linked only into the `"Buildings"` collection. -/
def addBuildingObj (k : ℕ) (st : SceneState) : SceneState :=
  { st with objects := st.objects ++
              [⟨st.nextId, "Building_" ++ toString k, ObjType.mesh⟩],
            colls := st.colls.map (fun c =>
              if c.name = "Buildings" then { c with objIds := c.objIds ++ [st.nextId] }
              else c),
            nextId := st.nextId + 1 }

/-- The building loop's scene effect: add buildings `k, k+1, ...` for
`n` iterations. -/
def addBuildingsFrom : ℕ → ℕ → SceneState → SceneState
  | _, 0, st => st
  | k, n + 1, st => addBuildingsFrom (k + 1) n (addBuildingObj k st)

/-- Scene effect of `create_buildings` (lines 101-161).  The Boolean
records whether the zero-subdivision error message was printed
(lines 112-114); on that path the function returns before touching the
scene.  Otherwise the `"Buildings"` collection is reused by name or
created and linked (lines 124-129), and one cube is added per terrain
vertex. -/
def create_buildings (nx ny : ℕ) (st : SceneState) : SceneState × Bool :=
  if nx = 0 ∨ ny = 0 then (st, true)
  else
    let st1 :=
      if "Buildings" ∈ st.colls.map (fun c => c.name) then st
      else { st with colls := st.colls ++ [⟨"Buildings", []⟩],
                     sceneChildren := st.sceneChildren ++ ["Buildings"] }
    (addBuildingsFrom 0 ((nx + 1) * (ny + 1)) st1, false)

/-- Material upsert used by `setup_scene` (lines 220-223 and 241-244):
reuse the material data block of that name if it exists, otherwise
create it. -/
def upsertMaterial (nm : String) (ms : List String) : List String :=
  if nm ∈ ms then ms else ms ++ [nm]

/-- Translation of `setup_scene` (lines 163-261): delete every `LIGHT`
and `CAMERA` object (lines 167-175), create a fresh sun light
`"SunLightObj"` and a fresh camera `"SceneCameraObj"` (lines 178-194),
and upsert the two materials by name (lines 217-252).  Render-engine
settings and material assignment touch no tracked state. -/
def setup_scene (st : SceneState) : SceneState :=
  let keep := st.objects.filter
    (fun o => o.type ≠ ObjType.light ∧ o.type ≠ ObjType.camera)
  let keptIds := keep.map (fun o => o.id)
  { objects := keep ++ [⟨st.nextId, "SunLightObj", ObjType.light⟩,
      ⟨st.nextId + 1, "SceneCameraObj", ObjType.camera⟩],
    colls := st.colls.map (fun c =>
      { c with objIds := c.objIds.filter (fun i => i ∈ keptIds) }),
    sceneChildren := st.sceneChildren,
    materials := upsertMaterial "BuildingMaterial"
      (upsertMaterial "TerrainMaterial" st.materials),
    nextId := st.nextId + 2 }

/-- Translation of the main block (lines 265-270): reset, terrain,
buildings, dressing. -/
def run_pipeline (nx ny : ℕ) (st : SceneState) : SceneState :=
  setup_scene (create_buildings nx ny (create_terrain (clear_scene st))).1

/-- Number of objects of the given type in the scene. -/
def countType (t : ObjType) (st : SceneState) : ℕ :=
  (st.objects.filter (fun o => o.type = t)).length

/-- A scene that already holds a light named exactly like the one
`setup_scene` creates; used to refute the reuse part of C2. -/
def preLitState : SceneState :=
  { objects := [⟨5, "SunLightObj", ObjType.light⟩],
    colls := [], sceneChildren := [], materials := [], nextId := 6 }

/-- The empty scene. -/
def emptyState : SceneState :=
  { objects := [], colls := [], sceneChildren := [], materials := [], nextId := 0 }

/-- A mixed scene used by the C9 witness: one object of every type. -/
def mixedState : SceneState :=
  { objects := [⟨0, "OldMesh", ObjType.mesh⟩, ⟨1, "OldLight", ObjType.light⟩,
      ⟨2, "OldCam", ObjType.camera⟩, ⟨3, "OldCurve", ObjType.other⟩],
    colls := [], sceneChildren := [], materials := [], nextId := 4 }

end CityScene

namespace CityGen

lemma mem_create_terrain_iff {size : ℝ} {nx ny : ℕ} {f s : ℝ} {v : Vec3} :
    v ∈ create_terrain size nx ny f s ↔
      ∃ k, k < (nx + 1) * (ny + 1) ∧ v = terrainVert size nx ny f s k := by
  simp only [create_terrain, List.mem_map, List.mem_range]
  constructor
  · rintro ⟨k, hk, rfl⟩; exact ⟨k, hk, rfl⟩
  · rintro ⟨k, hk, rfl⟩; exact ⟨k, hk, rfl⟩

lemma mem_buildLoop_iff {bsx bsy embed : ℝ} {heights : ℕ → ℝ} {b : Building} :
    ∀ (k : ℕ) (vs : List Vec3),
      b ∈ buildLoop bsx bsy embed heights k vs ↔
        ∃ m, ∃ hm : m < vs.length,
          b = { center := ⟨(vs.get ⟨m, hm⟩).x, (vs.get ⟨m, hm⟩).y,
                  ((vs.get ⟨m, hm⟩).z - embed) + heights (k + m) / 2⟩,
                sizeX := bsx, sizeY := bsy, height := heights (k + m) } := by
  intro k vs
  induction vs generalizing k with
  | nil => simp [buildLoop]
  | cons v vs ih =>
      simp only [buildLoop, List.mem_cons, ih (k + 1)]
      constructor
      · rintro (rfl | ⟨m, hm, rfl⟩)
        · exact ⟨0, by simp, by simp⟩
        · exact ⟨m + 1, by simpa using Nat.succ_lt_succ hm, by
            simp [List.get_cons_succ, Nat.add_assoc, Nat.add_comm 1 m]⟩
      · rintro ⟨m, hm, rfl⟩
        cases m with
        | zero => exact Or.inl (by simp)
        | succ m =>
            refine Or.inr ⟨m, by simpa using Nat.lt_of_succ_lt_succ hm, ?_⟩
            simp [List.get_cons_succ, Nat.add_assoc, Nat.add_comm 1 m]

lemma mem_create_buildings_iff {size : ℝ} {nx ny : ℕ} {f s swf embed : ℝ}
    {heights : ℕ → ℝ} {b : Building} :
    b ∈ create_buildings (create_terrain size nx ny f s) size nx ny swf embed heights ↔
      ¬(nx = 0 ∨ ny = 0) ∧
        ∃ k, k < (nx + 1) * (ny + 1) ∧ b = buildingAt size nx ny f s swf embed heights k := by
  unfold create_buildings
  by_cases hg : nx = 0 ∨ ny = 0
  · simp [hg]
  · rw [if_neg hg]
    simp only [hg, not_false_iff, true_and]
    rw [mem_buildLoop_iff]
    have hlen : (create_terrain size nx ny f s).length = (nx + 1) * (ny + 1) := by
      simp [create_terrain]
    constructor
    · rintro ⟨m, hm, rfl⟩
      refine ⟨m, by rw [← hlen]; exact hm, ?_⟩
      have hget : (create_terrain size nx ny f s).get ⟨m, hm⟩ =
          terrainVert size nx ny f s m := by
        simp [create_terrain]
      rw [hget]
      simp [buildingAt]
    · rintro ⟨m, hm, rfl⟩
      have hm' : m < (create_terrain size nx ny f s).length := by rw [hlen]; exact hm
      refine ⟨m, hm', ?_⟩
      have hget : (create_terrain size nx ny f s).get ⟨m, hm'⟩ =
          terrainVert size nx ny f s m := by
        simp [create_terrain]
      rw [hget]
      simp [buildingAt]

lemma one_le_abs_cast_sub {a b : ℕ} (h : a ≠ b) : (1 : ℝ) ≤ |(a : ℝ) - b| := by
  have h1 : (a : ℤ) - b ≠ 0 := by
    rw [sub_ne_zero]
    exact_mod_cast h
  have h2 := Int.one_le_abs h1
  have h3 : ((1 : ℤ) : ℝ) ≤ ((|(a : ℤ) - b| : ℤ) : ℝ) := by exact_mod_cast h2
  push_cast at h3
  convert h3 using 2

lemma not_overlapAxis_of_far {c1 c2 bs : ℝ} (h : bs < |c1 - c2|) :
    ¬ overlapAxis c1 bs c2 bs := by
  rintro ⟨p, h1, h2⟩
  have h3 : |c1 - c2| ≤ |c1 - p| + |p - c2| := abs_sub_le c1 p c2
  rw [abs_sub_comm c1 p] at h3
  linarith

lemma axis_separation {cw swf : ℝ} (hcw : 0 < cw) (hswf : 0 < swf)
    {i1 i2 : ℕ} (hne : i1 ≠ i2) (o : ℝ) :
    ¬ overlapAxis ((i1 : ℝ) * cw - o) (cw * (1 - swf)) ((i2 : ℝ) * cw - o)
      (cw * (1 - swf)) := by
  apply not_overlapAxis_of_far
  have h1 : (1 : ℝ) ≤ |(i1 : ℝ) - i2| := one_le_abs_cast_sub hne
  have h2 : ((i1 : ℝ) * cw - o) - ((i2 : ℝ) * cw - o) = ((i1 : ℝ) - i2) * cw := by
    ring
  rw [h2, abs_mul, abs_of_pos hcw]
  have h3 : 1 * cw ≤ |(i1 : ℝ) - i2| * cw :=
    mul_le_mul_of_nonneg_right h1 hcw.le
  nlinarith [mul_pos hcw hswf]

/-- C1: for every grid vertex at local coordinates `(x, y)`, the terrain
height assigned by `create_terrain` equals
`s/2 * ( sin(x*f)*cos(y*f) + sin(x*f*0.5+1)*cos(y*f*0.5) )`, where `f`
is the wave frequency and `s` is the height scale. -/
theorem terrain_height_formula (size : ℝ) (nx ny : ℕ) (f s : ℝ) (v : Vec3)
    (hv : v ∈ create_terrain size nx ny f s) :
    v.z = s / 2 * (Real.sin (v.x * f) * Real.cos (v.y * f) +
      Real.sin (v.x * f * 0.5 + 1) * Real.cos (v.y * f * 0.5)) := by
  rcases mem_create_terrain_iff.mp hv with ⟨k, -, rfl⟩
  simp only [terrainVert, terrainHeight]
  ring

/-- Witness for C1 at `size = 2`, `nx = ny = 1`, `f = 0`, `s = 0`,
vertex `k = 0`. -/
theorem terrain_height_formula_witness :
    terrainVert 2 1 1 0 0 0 ∈ create_terrain 2 1 1 0 0 ∧
      (terrainVert 2 1 1 0 0 0).z = 0 / 2 *
        (Real.sin ((terrainVert 2 1 1 0 0 0).x * 0) *
            Real.cos ((terrainVert 2 1 1 0 0 0).y * 0) +
          Real.sin ((terrainVert 2 1 1 0 0 0).x * 0 * 0.5 + 1) *
            Real.cos ((terrainVert 2 1 1 0 0 0).y * 0 * 0.5)) := by
  have hv : terrainVert 2 1 1 0 0 0 ∈ create_terrain 2 1 1 0 0 :=
    mem_create_terrain_iff.mpr ⟨0, by norm_num, rfl⟩
  exact ⟨hv, terrain_height_formula 2 1 1 0 0 _ hv⟩

/-- C7: when the height scale is `0`, every vertex height produced by
`create_terrain` is exactly `0`, for every wave frequency. -/
theorem terrain_flat_when_scale_zero (size : ℝ) (nx ny : ℕ) (f : ℝ) (v : Vec3)
    (hv : v ∈ create_terrain size nx ny f 0) : v.z = 0 := by
  rcases mem_create_terrain_iff.mp hv with ⟨k, -, rfl⟩
  simp only [terrainVert, terrainHeight]
  ring

/-- Witness for C7 at `size = 2`, `nx = ny = 1`, `f = 3`, vertex `k = 1`. -/
theorem terrain_flat_when_scale_zero_witness :
    terrainVert 2 1 1 3 0 1 ∈ create_terrain 2 1 1 3 0 ∧
      (terrainVert 2 1 1 3 0 1).z = 0 := by
  have hv : terrainVert 2 1 1 3 0 1 ∈ create_terrain 2 1 1 3 0 :=
    mem_create_terrain_iff.mpr ⟨1, by norm_num, rfl⟩
  exact ⟨hv, terrain_flat_when_scale_zero 2 1 1 3 _ hv⟩

/-- C8: when the wave frequency is `0` and the height scale is nonzero,
every vertex height produced by `create_terrain` equals the constant
`s/2 * (0*1 + sin(1)*1)`, independent of the vertex position. -/
theorem terrain_constant_when_freq_zero (size : ℝ) (nx ny : ℕ) (s : ℝ)
    (_hs : s ≠ 0) (v : Vec3) (hv : v ∈ create_terrain size nx ny 0 s) :
    v.z = s / 2 * (0 * 1 + Real.sin 1 * 1) := by
  rcases mem_create_terrain_iff.mp hv with ⟨k, -, rfl⟩
  simp only [terrainVert, terrainHeight]
  norm_num [Real.sin_zero, Real.cos_zero]
  ring

/-- Witness for C8 at `size = 2`, `nx = ny = 1`, `s = 5`, vertex `k = 2`. -/
theorem terrain_constant_when_freq_zero_witness :
    (5 : ℝ) ≠ 0 ∧ terrainVert 2 1 1 0 5 2 ∈ create_terrain 2 1 1 0 5 ∧
      (terrainVert 2 1 1 0 5 2).z = 5 / 2 * (0 * 1 + Real.sin 1 * 1) := by
  have hv : terrainVert 2 1 1 0 5 2 ∈ create_terrain 2 1 1 0 5 :=
    mem_create_terrain_iff.mpr ⟨2, by norm_num, rfl⟩
  exact ⟨by norm_num, hv,
    terrain_constant_when_freq_zero 2 1 1 5 (by norm_num) _ hv⟩

/-- C4: for every pair of distinct buildings placed by
`create_buildings`, when the street width factor is positive their
footprints do not overlap: buildings are centred at grid vertices spaced
one cell width apart per axis, and each footprint is strictly smaller
than the cell width. -/
theorem buildings_no_overlap (size : ℝ) (nx ny : ℕ) (f s swf embed : ℝ)
    (heights : ℕ → ℝ) (hsize : 0 < size) (hswf : 0 < swf) (b1 b2 : Building)
    (h1 : b1 ∈ create_buildings (create_terrain size nx ny f s) size nx ny swf embed heights)
    (h2 : b2 ∈ create_buildings (create_terrain size nx ny f s) size nx ny swf embed heights)
    (hne : b1 ≠ b2) : ¬ overlap b1 b2 := by
  rcases mem_create_buildings_iff.mp h1 with ⟨hg, k1, hk1, rfl⟩
  rcases mem_create_buildings_iff.mp h2 with ⟨-, k2, hk2, rfl⟩
  push_neg at hg
  obtain ⟨hnx, hny⟩ := hg
  have hk : k1 ≠ k2 := fun h => hne (by rw [h])
  have hcwx : (0 : ℝ) < size / nx :=
    div_pos hsize (by exact_mod_cast Nat.pos_of_ne_zero hnx)
  have hcwy : (0 : ℝ) < size / ny :=
    div_pos hsize (by exact_mod_cast Nat.pos_of_ne_zero hny)
  have hij : k1 % (nx + 1) ≠ k2 % (nx + 1) ∨ k1 / (nx + 1) ≠ k2 / (nx + 1) := by
    by_contra hc
    push_neg at hc
    apply hk
    calc k1 = (nx + 1) * (k1 / (nx + 1)) + k1 % (nx + 1) :=
          (Nat.div_add_mod k1 (nx + 1)).symm
      _ = (nx + 1) * (k2 / (nx + 1)) + k2 % (nx + 1) := by rw [hc.1, hc.2]
      _ = k2 := Nat.div_add_mod k2 (nx + 1)
  rintro ⟨hox, hoy⟩
  rcases hij with hi | hj
  · have hox' : overlapAxis ((k1 % (nx + 1) : ℕ) * (size / nx) - size / 2)
        (size / nx * (1 - swf)) ((k2 % (nx + 1) : ℕ) * (size / nx) - size / 2)
        (size / nx * (1 - swf)) := by
      simpa [buildingAt, terrainVert] using hox
    exact axis_separation hcwx hswf hi (size / 2) hox'
  · have hoy' : overlapAxis ((k1 / (nx + 1) : ℕ) * (size / ny) - size / 2)
        (size / ny * (1 - swf)) ((k2 / (nx + 1) : ℕ) * (size / ny) - size / 2)
        (size / ny * (1 - swf)) := by
      simpa [buildingAt, terrainVert] using hoy
    exact axis_separation hcwy hswf hj (size / 2) hoy'

/-- Witness for C4: on a `2 × 2` grid of extent `2` with street width
factor `1/2`, the buildings at vertices `0` and `1` are distinct and do
not overlap. -/
theorem buildings_no_overlap_witness :
    (0 : ℝ) < 2 ∧ (0 : ℝ) < 1 / 2 ∧
      witnessBuildingA ∈ create_buildings (create_terrain 2 1 1 0 0) 2 1 1 (1 / 2) 0
        (fun _ => 1) ∧
      witnessBuildingB ∈ create_buildings (create_terrain 2 1 1 0 0) 2 1 1 (1 / 2) 0
        (fun _ => 1) ∧
      witnessBuildingA ≠ witnessBuildingB ∧
      ¬ overlap witnessBuildingA witnessBuildingB := by
  have hmA : witnessBuildingA ∈ create_buildings (create_terrain 2 1 1 0 0) 2 1 1
      (1 / 2) 0 (fun _ => 1) :=
    mem_create_buildings_iff.mpr ⟨by norm_num, 0, by norm_num, rfl⟩
  have hmB : witnessBuildingB ∈ create_buildings (create_terrain 2 1 1 0 0) 2 1 1
      (1 / 2) 0 (fun _ => 1) :=
    mem_create_buildings_iff.mpr ⟨by norm_num, 1, by norm_num, rfl⟩
  have hne : witnessBuildingA ≠ witnessBuildingB := by
    intro h
    have hx := congrArg (fun b => b.center.x) h
    norm_num [witnessBuildingA, witnessBuildingB, buildingAt, terrainVert] at hx
  exact ⟨by norm_num, by norm_num, hmA, hmB, hne,
    buildings_no_overlap 2 1 1 0 0 (1 / 2) 0 (fun _ => 1) (by norm_num)
      (by norm_num) _ _ hmA hmB hne⟩

/-- C5: for every building, its base z-coordinate (centre minus half its
drawn height) equals the terrain height at its grid vertex minus the
embed depth — independent of the drawn height — and its vertical centre
equals that base plus half the drawn height. -/
theorem building_base_and_center (size : ℝ) (nx ny : ℕ) (f s swf embed : ℝ)
    (heights : ℕ → ℝ) (b : Building)
    (hb : b ∈ create_buildings (create_terrain size nx ny f s) size nx ny swf embed heights) :
    b.center.z - b.height / 2 = terrainHeight f s b.center.x b.center.y - embed ∧
      b.center.z = (terrainHeight f s b.center.x b.center.y - embed) + b.height / 2 := by
  rcases mem_create_buildings_iff.mp hb with ⟨-, k, -, rfl⟩
  constructor
  · simp only [buildingAt, terrainVert]
    ring
  · simp [buildingAt, terrainVert]

/-- Witness for C5 at `size = 2`, `nx = ny = 1`, vertex `2`, drawn
height `7`. -/
theorem building_base_and_center_witness :
    buildingAt 2 1 1 0 0 (1 / 2) (1 / 10) (fun _ => 7) 2 ∈
        create_buildings (create_terrain 2 1 1 0 0) 2 1 1 (1 / 2) (1 / 10) (fun _ => 7) ∧
      ((buildingAt 2 1 1 0 0 (1 / 2) (1 / 10) (fun _ => 7) 2).center.z -
          (buildingAt 2 1 1 0 0 (1 / 2) (1 / 10) (fun _ => 7) 2).height / 2 =
        terrainHeight 0 0 (buildingAt 2 1 1 0 0 (1 / 2) (1 / 10) (fun _ => 7) 2).center.x
          (buildingAt 2 1 1 0 0 (1 / 2) (1 / 10) (fun _ => 7) 2).center.y - 1 / 10 ∧
        (buildingAt 2 1 1 0 0 (1 / 2) (1 / 10) (fun _ => 7) 2).center.z =
          (terrainHeight 0 0 (buildingAt 2 1 1 0 0 (1 / 2) (1 / 10) (fun _ => 7) 2).center.x
            (buildingAt 2 1 1 0 0 (1 / 2) (1 / 10) (fun _ => 7) 2).center.y - 1 / 10) +
          (buildingAt 2 1 1 0 0 (1 / 2) (1 / 10) (fun _ => 7) 2).height / 2) := by
  have hm : buildingAt 2 1 1 0 0 (1 / 2) (1 / 10) (fun _ => 7) 2 ∈
      create_buildings (create_terrain 2 1 1 0 0) 2 1 1 (1 / 2) (1 / 10) (fun _ => 7) :=
    mem_create_buildings_iff.mpr ⟨by norm_num, 2, by norm_num, rfl⟩
  exact ⟨hm, building_base_and_center 2 1 1 0 0 (1 / 2) (1 / 10) (fun _ => 7) _ hm⟩

/-- C6: for every building, the footprint per axis equals
`cell width * (1 - street_width_factor)` with
`cell width = extent / subdivisions` on that axis, and at street width
factor `1` the footprint is `0` on both axes. -/
theorem building_footprint_size (size : ℝ) (nx ny : ℕ) (f s swf embed : ℝ)
    (heights : ℕ → ℝ) (b : Building)
    (hb : b ∈ create_buildings (create_terrain size nx ny f s) size nx ny swf embed heights) :
    (b.sizeX = size / nx * (1 - swf) ∧ b.sizeY = size / ny * (1 - swf)) ∧
      (swf = 1 → b.sizeX = 0 ∧ b.sizeY = 0) := by
  rcases mem_create_buildings_iff.mp hb with ⟨-, k, -, rfl⟩
  refine ⟨⟨rfl, rfl⟩, ?_⟩
  rintro rfl
  constructor
  · simp [buildingAt]
  · simp [buildingAt]

/-- Witness for C6 at `size = 2`, `nx = ny = 1`, street width factor `1`,
vertex `3`. -/
theorem building_footprint_size_witness :
    buildingAt 2 1 1 0 0 1 0 (fun _ => 1) 3 ∈
        create_buildings (create_terrain 2 1 1 0 0) 2 1 1 1 0 (fun _ => 1) ∧
      (((buildingAt 2 1 1 0 0 1 0 (fun _ => 1) 3).sizeX = 2 / (1 : ℕ) * (1 - 1) ∧
        (buildingAt 2 1 1 0 0 1 0 (fun _ => 1) 3).sizeY = 2 / (1 : ℕ) * (1 - 1)) ∧
        ((1 : ℝ) = 1 → (buildingAt 2 1 1 0 0 1 0 (fun _ => 1) 3).sizeX = 0 ∧
          (buildingAt 2 1 1 0 0 1 0 (fun _ => 1) 3).sizeY = 0)) := by
  have hm : buildingAt 2 1 1 0 0 1 0 (fun _ => 1) 3 ∈
      create_buildings (create_terrain 2 1 1 0 0) 2 1 1 1 0 (fun _ => 1) :=
    mem_create_buildings_iff.mpr ⟨by norm_num, 3, by norm_num, rfl⟩
  exact ⟨hm, building_footprint_size 2 1 1 0 0 1 0 (fun _ => 1) _ hm⟩

end CityGen

namespace CityScene

lemma clear_scene_objects (st : SceneState) :
    (clear_scene st).objects = st.objects.filter (fun o => o.type ≠ ObjType.mesh) := rfl

lemma setup_scene_objects (st : SceneState) :
    (setup_scene st).objects =
      st.objects.filter (fun o => o.type ≠ ObjType.light ∧ o.type ≠ ObjType.camera) ++
        [⟨st.nextId, "SunLightObj", ObjType.light⟩,
         ⟨st.nextId + 1, "SceneCameraObj", ObjType.camera⟩] := rfl

lemma setup_scene_materials (st : SceneState) :
    (setup_scene st).materials =
      upsertMaterial "BuildingMaterial" (upsertMaterial "TerrainMaterial" st.materials) := rfl

lemma clear_scene_materials (st : SceneState) :
    (clear_scene st).materials = st.materials := rfl

lemma create_terrain_materials (st : SceneState) :
    (create_terrain st).materials = st.materials := rfl

lemma addBuildingsFrom_materials (n : ℕ) : ∀ (k : ℕ) (st : SceneState),
    (addBuildingsFrom k n st).materials = st.materials := by
  induction n with
  | zero => intro k st; rfl
  | succ n ih =>
      intro k st
      show (addBuildingsFrom (k + 1) n (addBuildingObj k st)).materials = st.materials
      rw [ih]
      rfl

lemma create_buildings_materials (nx ny : ℕ) (st : SceneState) :
    (create_buildings nx ny st).1.materials = st.materials := by
  unfold create_buildings
  by_cases hg : nx = 0 ∨ ny = 0
  · rw [if_pos hg]
  · rw [if_neg hg]
    by_cases hb : "Buildings" ∈ st.colls.map (fun c => c.name)
    · rw [if_pos hb, addBuildingsFrom_materials]
    · rw [if_neg hb, addBuildingsFrom_materials]

lemma run_pipeline_materials (nx ny : ℕ) (st : SceneState) :
    (run_pipeline nx ny st).materials =
      upsertMaterial "BuildingMaterial" (upsertMaterial "TerrainMaterial" st.materials) := by
  unfold run_pipeline
  rw [setup_scene_materials, create_buildings_materials, create_terrain_materials,
    clear_scene_materials]

lemma filter_lc_drop_light (l : List SceneObj) :
    (l.filter (fun o => o.type ≠ ObjType.light ∧ o.type ≠ ObjType.camera)).filter
      (fun o => o.type = ObjType.light) = [] := by
  rw [List.filter_filter]
  apply List.filter_eq_nil_iff.mpr
  intro a _
  rcases h : a.type with _ | _ | _ | _ <;> simp [h]

lemma filter_lc_drop_camera (l : List SceneObj) :
    (l.filter (fun o => o.type ≠ ObjType.light ∧ o.type ≠ ObjType.camera)).filter
      (fun o => o.type = ObjType.camera) = [] := by
  rw [List.filter_filter]
  apply List.filter_eq_nil_iff.mpr
  intro a _
  rcases h : a.type with _ | _ | _ | _ <;> simp [h]

lemma filter_lc_keep_mesh (l : List SceneObj) :
    (l.filter (fun o => o.type ≠ ObjType.light ∧ o.type ≠ ObjType.camera)).filter
      (fun o => o.type = ObjType.mesh) = l.filter (fun o => o.type = ObjType.mesh) := by
  rw [List.filter_filter]
  apply List.filter_congr
  intro a _
  rcases h : a.type with _ | _ | _ | _ <;> simp [h]

lemma filter_m_drop_mesh (l : List SceneObj) :
    (l.filter (fun o => o.type ≠ ObjType.mesh)).filter
      (fun o => o.type = ObjType.mesh) = [] := by
  rw [List.filter_filter]
  apply List.filter_eq_nil_iff.mpr
  intro a _
  rcases h : a.type with _ | _ | _ | _ <;> simp [h]

lemma filter_m_keep_light (l : List SceneObj) :
    (l.filter (fun o => o.type ≠ ObjType.mesh)).filter
      (fun o => o.type = ObjType.light) = l.filter (fun o => o.type = ObjType.light) := by
  rw [List.filter_filter]
  apply List.filter_congr
  intro a _
  rcases h : a.type with _ | _ | _ | _ <;> simp [h]

lemma filter_m_keep_camera (l : List SceneObj) :
    (l.filter (fun o => o.type ≠ ObjType.mesh)).filter
      (fun o => o.type = ObjType.camera) = l.filter (fun o => o.type = ObjType.camera) := by
  rw [List.filter_filter]
  apply List.filter_congr
  intro a _
  rcases h : a.type with _ | _ | _ | _ <;> simp [h]

lemma countType_light_setup (st : SceneState) :
    countType ObjType.light (setup_scene st) = 1 := by
  unfold countType
  rw [setup_scene_objects, List.filter_append, filter_lc_drop_light]
  rfl

lemma countType_camera_setup (st : SceneState) :
    countType ObjType.camera (setup_scene st) = 1 := by
  unfold countType
  rw [setup_scene_objects, List.filter_append, filter_lc_drop_camera]
  rfl

lemma countType_mesh_setup (st : SceneState) :
    countType ObjType.mesh (setup_scene st) = countType ObjType.mesh st := by
  unfold countType
  rw [setup_scene_objects, List.filter_append, filter_lc_keep_mesh]
  simp

lemma countType_mesh_clear (st : SceneState) :
    countType ObjType.mesh (clear_scene st) = 0 := by
  unfold countType
  rw [clear_scene_objects, filter_m_drop_mesh]
  rfl

lemma countType_mesh_terrain (st : SceneState) :
    countType ObjType.mesh (create_terrain st) = countType ObjType.mesh st + 1 := by
  simp [countType, create_terrain, List.filter_append]

lemma countType_addBuildingObj_mesh (k : ℕ) (st : SceneState) :
    countType ObjType.mesh (addBuildingObj k st) = countType ObjType.mesh st + 1 := by
  simp [countType, addBuildingObj, List.filter_append]

lemma countType_addBuildingsFrom_mesh (n : ℕ) : ∀ (k : ℕ) (st : SceneState),
    countType ObjType.mesh (addBuildingsFrom k n st) = countType ObjType.mesh st + n := by
  induction n with
  | zero => intro k st; rfl
  | succ n ih =>
      intro k st
      show countType ObjType.mesh (addBuildingsFrom (k + 1) n (addBuildingObj k st)) = _
      rw [ih, countType_addBuildingObj_mesh]
      omega

lemma countType_mesh_create_buildings (nx ny : ℕ) (st : SceneState) :
    countType ObjType.mesh (create_buildings nx ny st).1 =
      countType ObjType.mesh st +
        (if nx = 0 ∨ ny = 0 then 0 else (nx + 1) * (ny + 1)) := by
  unfold create_buildings
  by_cases hg : nx = 0 ∨ ny = 0
  · rw [if_pos hg, if_pos hg]
    rfl
  · rw [if_neg hg, if_neg hg]
    by_cases hb : "Buildings" ∈ st.colls.map (fun c => c.name)
    · rw [if_pos hb, countType_addBuildingsFrom_mesh]
    · rw [if_neg hb, countType_addBuildingsFrom_mesh]
      rfl

lemma countType_mesh_run_pipeline (nx ny : ℕ) (st : SceneState) :
    countType ObjType.mesh (run_pipeline nx ny st) =
      1 + (if nx = 0 ∨ ny = 0 then 0 else (nx + 1) * (ny + 1)) := by
  unfold run_pipeline
  rw [countType_mesh_setup, countType_mesh_create_buildings, countType_mesh_terrain,
    countType_mesh_clear]

/-- C2 counterexample: a scene already holding a light named exactly
like the one the script creates.  `setup_scene` does not reuse it: the
pre-existing light object is gone afterwards, replaced by a freshly
created light with a different identity.  This refutes the claim that
`setup_scene` looks the light up by name and reuses it if present. -/
theorem setup_scene_not_reusing_light :
    (⟨5, "SunLightObj", ObjType.light⟩ : SceneObj) ∈ preLitState.objects ∧
      (⟨5, "SunLightObj", ObjType.light⟩ : SceneObj) ∉ (setup_scene preLitState).objects ∧
      (∃ o ∈ (setup_scene preLitState).objects, o.type = ObjType.light ∧ o.id ≠ 5) := by
  decide

/-- C2 (amended): `setup_scene` deletes every light and camera and
creates one fresh light and one fresh camera on each run, while the two
materials are looked up by name and reused if present; consequently,
from a scene with no materials, running the full pipeline twice leaves
exactly one light, one camera and exactly the two materials, and the
second run adds no resources beyond the first (same materials, same
light, camera and mesh counts). -/
theorem pipeline_twice_resources (nx ny : ℕ) (st : SceneState)
    (hm : st.materials = []) :
    countType ObjType.light (run_pipeline nx ny (run_pipeline nx ny st)) = 1 ∧
      countType ObjType.camera (run_pipeline nx ny (run_pipeline nx ny st)) = 1 ∧
      (run_pipeline nx ny (run_pipeline nx ny st)).materials =
        ["TerrainMaterial", "BuildingMaterial"] ∧
      (run_pipeline nx ny st).materials =
        (run_pipeline nx ny (run_pipeline nx ny st)).materials ∧
      countType ObjType.light (run_pipeline nx ny st) = 1 ∧
      countType ObjType.camera (run_pipeline nx ny st) = 1 ∧
      countType ObjType.mesh (run_pipeline nx ny (run_pipeline nx ny st)) =
        countType ObjType.mesh (run_pipeline nx ny st) := by
  have h1 : (run_pipeline nx ny st).materials =
      ["TerrainMaterial", "BuildingMaterial"] := by
    rw [run_pipeline_materials, hm]
    simp [upsertMaterial]
  have h2 : (run_pipeline nx ny (run_pipeline nx ny st)).materials =
      ["TerrainMaterial", "BuildingMaterial"] := by
    rw [run_pipeline_materials, h1]
    simp [upsertMaterial]
  refine ⟨?_, ?_, h2, ?_, ?_, ?_, ?_⟩
  · exact countType_light_setup _
  · exact countType_camera_setup _
  · rw [h1, h2]
  · exact countType_light_setup _
  · exact countType_camera_setup _
  · rw [countType_mesh_run_pipeline, countType_mesh_run_pipeline]

/-- Witness for the amended C2 at `nx = ny = 1` from the empty scene. -/
theorem pipeline_twice_resources_witness :
    emptyState.materials = [] ∧
      (countType ObjType.light (run_pipeline 1 1 (run_pipeline 1 1 emptyState)) = 1 ∧
        countType ObjType.camera (run_pipeline 1 1 (run_pipeline 1 1 emptyState)) = 1 ∧
        (run_pipeline 1 1 (run_pipeline 1 1 emptyState)).materials =
          ["TerrainMaterial", "BuildingMaterial"] ∧
        (run_pipeline 1 1 emptyState).materials =
          (run_pipeline 1 1 (run_pipeline 1 1 emptyState)).materials ∧
        countType ObjType.light (run_pipeline 1 1 emptyState) = 1 ∧
        countType ObjType.camera (run_pipeline 1 1 emptyState) = 1 ∧
        countType ObjType.mesh (run_pipeline 1 1 (run_pipeline 1 1 emptyState)) =
          countType ObjType.mesh (run_pipeline 1 1 emptyState)) :=
  ⟨rfl, pipeline_twice_resources 1 1 emptyState rfl⟩

/-- C3: with a zero subdivision count on either axis, `create_buildings`
prints an error and creates zero buildings, while the terrain object
created earlier by `create_terrain` still exists in the scene. -/
theorem zero_subdivisions_no_buildings (size f s swf embed : ℝ)
    (heights : ℕ → ℝ) (nx ny : ℕ) (st : SceneState) (hz : nx = 0 ∨ ny = 0) :
    CityGen.create_buildings (CityGen.create_terrain size nx ny f s) size nx ny swf
        embed heights = [] ∧
      (create_buildings nx ny (create_terrain (clear_scene st))).2 = true ∧
      ∃ o ∈ (create_buildings nx ny (create_terrain (clear_scene st))).1.objects,
        o.name = "Terrain" ∧ o.type = ObjType.mesh := by
  refine ⟨?_, ?_, ?_⟩
  · unfold CityGen.create_buildings
    rw [if_pos hz]
  · unfold create_buildings
    rw [if_pos hz]
  · unfold create_buildings
    rw [if_pos hz]
    refine ⟨⟨(clear_scene st).nextId, "Terrain", ObjType.mesh⟩, ?_, rfl, rfl⟩
    show _ ∈ (clear_scene st).objects ++ [⟨(clear_scene st).nextId, "Terrain", ObjType.mesh⟩]
    simp

/-- Witness for C3 at `nx = 0`, `ny = 3` from the empty scene. -/
theorem zero_subdivisions_no_buildings_witness :
    ((0 : ℕ) = 0 ∨ (3 : ℕ) = 0) ∧
      (CityGen.create_buildings (CityGen.create_terrain 1 0 3 0 0) 1 0 3 0 0
          (fun _ => 1) = [] ∧
        (create_buildings 0 3 (create_terrain (clear_scene emptyState))).2 = true ∧
        ∃ o ∈ (create_buildings 0 3 (create_terrain (clear_scene emptyState))).1.objects,
          o.name = "Terrain" ∧ o.type = ObjType.mesh) :=
  ⟨Or.inl rfl,
    zero_subdivisions_no_buildings 1 0 0 0 0 (fun _ => 1) 0 3 emptyState (Or.inl rfl)⟩

/-- C10: on the zero-subdivision error path, `create_buildings` leaves
the scene state completely unchanged: in particular the `"Buildings"`
collection is neither created nor linked under the scene root. -/
theorem zero_subdivisions_state_unchanged (nx ny : ℕ) (st : SceneState)
    (hz : nx = 0 ∨ ny = 0) :
    (create_buildings nx ny st).1 = st ∧
      (create_buildings nx ny st).1.colls = st.colls ∧
      (create_buildings nx ny st).1.sceneChildren = st.sceneChildren := by
  unfold create_buildings
  rw [if_pos hz]
  exact ⟨rfl, rfl, rfl⟩

/-- Witness for C10 at `nx = 4`, `ny = 0` on a mixed scene. -/
theorem zero_subdivisions_state_unchanged_witness :
    ((4 : ℕ) = 0 ∨ (0 : ℕ) = 0) ∧
      ((create_buildings 4 0 mixedState).1 = mixedState ∧
        (create_buildings 4 0 mixedState).1.colls = mixedState.colls ∧
        (create_buildings 4 0 mixedState).1.sceneChildren = mixedState.sceneChildren) :=
  ⟨Or.inr rfl, zero_subdivisions_state_unchanged 4 0 mixedState (Or.inr rfl)⟩

/-- C9: `clear_scene` deletes exactly the mesh objects of the scene,
whatever their origin, and `setup_scene` deletes every light and camera
object before creating its new light and camera; neither function
removes objects of any other type, and `setup_scene` adds nothing
beyond the one new light and the one new camera. -/
theorem scene_reset_type_effects (st : SceneState)
    (hwf : ∀ o ∈ st.objects, o.id < st.nextId) :
    (∀ o ∈ st.objects, o.type = ObjType.mesh → o ∉ (clear_scene st).objects) ∧
      (∀ o ∈ st.objects, o.type ≠ ObjType.mesh → o ∈ (clear_scene st).objects) ∧
      (∀ o ∈ (clear_scene st).objects, o ∈ st.objects) ∧
      (∀ o ∈ st.objects, (o.type = ObjType.light ∨ o.type = ObjType.camera) →
        o ∉ (setup_scene st).objects) ∧
      (∀ o ∈ st.objects, o.type ≠ ObjType.light → o.type ≠ ObjType.camera →
        o ∈ (setup_scene st).objects) ∧
      (⟨st.nextId, "SunLightObj", ObjType.light⟩ : SceneObj) ∈ (setup_scene st).objects ∧
      (⟨st.nextId + 1, "SceneCameraObj", ObjType.camera⟩ : SceneObj) ∈
        (setup_scene st).objects ∧
      (∀ o ∈ (setup_scene st).objects,
        o ∈ st.objects ∨ o.id = st.nextId ∨ o.id = st.nextId + 1) := by
  refine ⟨?_, ?_, ?_, ?_, ?_, ?_, ?_, ?_⟩
  · intro o ho hm
    rw [clear_scene_objects]
    simp [List.mem_filter, hm]
  · intro o ho hm
    rw [clear_scene_objects, List.mem_filter]
    exact ⟨ho, by simp [hm]⟩
  · intro o ho
    rw [clear_scene_objects] at ho
    exact (List.mem_filter.mp ho).1
  · intro o ho ht
    rw [setup_scene_objects]
    intro hmem
    rcases List.mem_append.mp hmem with hf | hlc
    · have hp := (List.mem_filter.mp hf).2
      simp only [decide_eq_true_eq] at hp
      rcases ht with h | h
      · exact hp.1 h
      · exact hp.2 h
    · have hid := hwf o ho
      rcases List.mem_cons.mp hlc with rfl | h2
      · exact Nat.lt_irrefl _ hid
      · rcases List.mem_cons.mp h2 with rfl | h3
        · have hlt : st.nextId + 1 < st.nextId := hid
          omega
        · simp at h3
  · intro o ho h1 h2
    rw [setup_scene_objects]
    refine List.mem_append.mpr (Or.inl ?_)
    rw [List.mem_filter]
    exact ⟨ho, by simp [h1, h2]⟩
  · rw [setup_scene_objects]
    simp
  · rw [setup_scene_objects]
    simp
  · intro o ho
    rw [setup_scene_objects] at ho
    rcases List.mem_append.mp ho with hf | hlc
    · exact Or.inl (List.mem_filter.mp hf).1
    · rcases List.mem_cons.mp hlc with rfl | h2
      · exact Or.inr (Or.inl rfl)
      · rcases List.mem_cons.mp h2 with rfl | h3
        · exact Or.inr (Or.inr rfl)
        · simp at h3

/-- Witness for C9 on a scene holding one object of each type. -/
theorem scene_reset_type_effects_witness :
    (∀ o ∈ mixedState.objects, o.id < mixedState.nextId) ∧
      ((∀ o ∈ mixedState.objects, o.type = ObjType.mesh →
          o ∉ (clear_scene mixedState).objects) ∧
        (∀ o ∈ mixedState.objects, o.type ≠ ObjType.mesh →
          o ∈ (clear_scene mixedState).objects) ∧
        (∀ o ∈ (clear_scene mixedState).objects, o ∈ mixedState.objects) ∧
        (∀ o ∈ mixedState.objects,
          (o.type = ObjType.light ∨ o.type = ObjType.camera) →
            o ∉ (setup_scene mixedState).objects) ∧
        (∀ o ∈ mixedState.objects, o.type ≠ ObjType.light →
          o.type ≠ ObjType.camera → o ∈ (setup_scene mixedState).objects) ∧
        (⟨mixedState.nextId, "SunLightObj", ObjType.light⟩ : SceneObj) ∈
          (setup_scene mixedState).objects ∧
        (⟨mixedState.nextId + 1, "SceneCameraObj", ObjType.camera⟩ : SceneObj) ∈
          (setup_scene mixedState).objects ∧
        (∀ o ∈ (setup_scene mixedState).objects,
          o ∈ mixedState.objects ∨ o.id = mixedState.nextId ∨
            o.id = mixedState.nextId + 1)) := by
  have hwf : ∀ o ∈ mixedState.objects, o.id < mixedState.nextId := by decide
  exact ⟨hwf, scene_reset_type_effects mixedState hwf⟩

end CityScene
